import Mathlib

/-!
Shallow embedding of the QUICkie event service.

Source files embedded:
* src/main.go — `EventHandler`, `storeEvent`, `GetEventsByTypeHandler`,
  `GetResultsOfType`;
* src/unnamed/part_000 (package mongops) — `FetchDataFromMongoDB`.

Modelling conventions:
* Go strings are Lean `String`s; a Go `error` value is `Option String`
  (`none` = nil error).
* The package `naevis/structs` is not under src/; its three structs are
  reconstructed from the fields referenced in src/main.go and part_000,
  with Go's zero value `""` as default for omitted fields.
* `json.Unmarshal` is external library code; the write handler is
  parameterised by `parse : String → Option Index` standing for it
  (`none` = unmarshal error).
* The SQLite `events` table is a `List EventRow`; `db.Exec` appends a row
  when it succeeds, and the flag `execOk` models whether it succeeds.
* `io.ReadAll` failures are not modelled (the body is given as a string),
  and `json.Marshal` on the read path cannot fail on these struct values,
  so its error branch is not modelled either.
-/

/-- `naevis/structs.Index`, reconstructed from the fields read in
src/main.go (`event.EntityType`, `event.Action`, `event.EntityId`,
`event.ItemId`, `event.ItemType`). Go's zero value `""` is the default. -/
structure Index where
  EntityType : String := ""
  Action : String := ""
  EntityId : String := ""
  ItemId : String := ""
  ItemType : String := ""
  deriving DecidableEq

/-- `naevis/structs.MongoData`, reconstructed from the field referenced in
src/main.go and src/unnamed/part_000 (`AdditionalInfo`). -/
structure MongoData where
  AdditionalInfo : String := ""
  deriving DecidableEq

/-- `naevis/structs.Result`, reconstructed from the fields used by the
composite literals in `GetResultsOfType` (src/main.go). The Go field
`Type` is written `Type'` because `Type` is reserved in Lean. Go's zero
value `""` is the default for fields a literal omits. -/
structure Result where
  Type' : String := ""
  ID : String := ""
  Name : String := ""
  Location : String := ""
  Category : String := ""
  Date : String := ""
  Price : String := ""
  Rating : String := ""
  Contact : String := ""
  Description : String := ""
  Image : String := ""
  Link : String := ""
  deriving DecidableEq

/-- One row of the SQLite `events` table, with the columns named in the
`INSERT` statement of `storeEvent` (src/main.go lines 97-99). -/
structure EventRow where
  entity_type : String
  action : String
  entity_id : String
  item_id : String
  item_type : String
  additional_info : String
  deriving DecidableEq

/-- An HTTP response as observed by the client: either an `http.Error`
with its message and status code, or a 200 response carrying a JSON
payload (the read path's marshalled result list, or the write path's
success message). -/
inductive HttpResponse where
  | error (msg : String) (status : Nat)
  | okJson (results : List Result)
  | okMessage (msg : String)
  deriving DecidableEq

/-- `mongops.FetchDataFromMongoDB` (src/unnamed/part_000 lines 11-21):
returns dummy data and a nil error. -/
def FetchDataFromMongoDB (event : Index) : MongoData × Option String :=
  ({ AdditionalInfo := "dummy info" }, none)

/-- `Server.storeEvent` (src/main.go lines 96-109): inserts one row built
from the event's five fields and the MongoDB data's `AdditionalInfo` into
the `events` table. -/
def storeEvent (table : List EventRow) (event : Index) (mongoData : MongoData) :
    List EventRow :=
  table ++ [{ entity_type := event.EntityType
              action := event.Action
              entity_id := event.EntityId
              item_id := event.ItemId
              item_type := event.ItemType
              additional_info := mongoData.AdditionalInfo }]

/-- `Server.EventHandler` (src/main.go lines 51-93), parameterised by the
enrichment function `fetch` (the source calls `mongops.FetchDataFromMongoDB`)
and by `parse` standing for `json.Unmarshal`. On a fetch error the source
only logs and continues, so the error component of `fetch` is ignored.
`execOk` models whether `db.Exec` in `storeEvent` succeeds. Returns the
response and the resulting `events` table. -/
def EventHandlerWith (fetch : Index → MongoData × Option String)
    (parse : String → Option Index) (method body : String)
    (execOk : Bool) (table : List EventRow) : HttpResponse × List EventRow :=
  if method ≠ "POST" then
    (.error "Only POST requests allowed" 405, table)
  else
    match parse body with
    | none => (.error "Invalid JSON" 400, table)
    | some event =>
      let mongoData := (fetch event).1
      if execOk then
        (.okMessage "Event received and stored successfully",
          storeEvent table event mongoData)
      else
        (.error "Failed to store event" 500, table)

/-- `Server.EventHandler` with the repository's actual enrichment stub
plugged in. -/
def EventHandler : (String → Option Index) → String → String →
    Bool → List EventRow → HttpResponse × List EventRow :=
  EventHandlerWith FetchDataFromMongoDB

/-- Helper for `strings.TrimPrefix`: `some rest` when the first list is a
leading run of the second, which then continues with `rest`. -/
def stripPre : List Char → List Char → Option (List Char)
  | [], s => some s
  | _ :: _, [] => none
  | p :: ps, c :: cs => if c = p then stripPre ps cs else none

/-- `strings.TrimPrefix` from the Go standard library: drops `pre` from
the front of `s` when it is a leading substring, else returns `s`
unchanged. (Defined over character lists so that it computes by
structural recursion.) -/
def trimPref (s pre : String) : String :=
  match stripPre pre.data s.data with
  | some rest => String.mk rest
  | none => s

/-- `strings.Split` from the Go standard library for a one-character
separator, over character lists: splits around every occurrence of `sep`;
the result is never the empty list (`strings.Split(s, sep)` on a
non-empty separator always yields at least one element, `[""]` for the
empty string). -/
def splitChars (sep : Char) : List Char → List (List Char)
  | [] => [[]]
  | c :: cs =>
    match splitChars sep cs with
    | [] => if c = sep then [[], []] else [[c]]
    | r :: rs => if c = sep then [] :: r :: rs else (c :: r) :: rs

/-- The entity-type extraction at the top of `GetEventsByTypeHandler`
(src/main.go lines 114-119): `pathParts[0]` of
`strings.Split(strings.TrimPrefix(path, "/events/"), "/")`. The split is
never empty, so `headD ""` is `pathParts[0]`, and it also covers the
(unreachable) `len(pathParts) == 0` branch, which the source folds into
the same 400 response as an empty first segment. -/
def extractEntityType (path : String) : String :=
  (((splitChars '/' (trimPref path "/events/").data).map String.mk).headD "")

/-- `GetResultsOfType` (src/main.go lines 150-268). The Go `switch`
appends to an initially empty slice; each branch is the resulting list.
All field values are copied verbatim from the source literals. -/
def GetResultsOfType (entityType : String) (query : String) : List Result :=
  if entityType = "events" then
    [ { Type' := "event"
        ID := "event123"
        Name := "Tech Conference 2025"
        Location := "Conference Hall A"
        Category := "Technology"
        Date := "2025-06-15"
        Price := "100"
        Description := "A conference on Go and Zig programming languages."
        Image := "https://example.com/event.jpg"
        Link := "https://eventsite.com/register" },
      { Type' := "event"
        ID := "event456"
        Name := "AI Summit"
        Location := "Silicon Valley"
        Category := "Artificial Intelligence"
        Date := "2025-07-10"
        Price := "200"
        Description := "The biggest AI event of the year!"
        Image := "https://example.com/ai_summit.jpg"
        Link := "https://aisummit.com" } ]
  else if entityType = "places" then
    [ { Type' := "place"
        ID := "place789"
        Name := "Central Park"
        Location := "New York City"
        Category := "Public Park"
        Rating := "4.7"
        Description := "A beautiful park in the city center."
        Image := "https://example.com/central_park.jpg"
        Link := "https://maps.google.com?q=Central+Park" },
      { Type' := "place"
        ID := "place101"
        Name := "Grand Canyon"
        Location := "Arizona, USA"
        Category := "Natural Wonder"
        Rating := "4.9"
        Description := "One of the most breathtaking canyons in the world."
        Image := "https://example.com/grand_canyon.jpg"
        Link := "https://maps.google.com?q=Grand+Canyon" } ]
  else if entityType = "people" then
    [ { Type' := "people"
        ID := "people123"
        Name := "Alice Johnson"
        Location := "San Francisco"
        Category := "Software Engineer"
        Description := "An experienced developer specializing in Go and AI."
        Image := "https://example.com/alice.jpg"
        Link := "https://linkedin.com/in/alicejohnson" },
      { Type' := "people"
        ID := "people456"
        Name := "John Doe"
        Location := "New York"
        Category := "Machine Learning Expert"
        Description := "ML researcher focusing on deep learning advancements."
        Image := "https://example.com/johndoe.jpg"
        Link := "https://linkedin.com/in/johndoe" } ]
  else if entityType = "businesses" then
    [ { Type' := "business"
        ID := "business789"
        Name := "TechNova"
        Location := "Silicon Valley"
        Category := "Tech Startup"
        Rating := "4.8"
        Contact := "+1 555-1234"
        Description := "A startup focused on AI and cloud computing."
        Image := "https://example.com/technova.jpg"
        Link := "https://technova.com" },
      { Type' := "business"
        ID := "business101"
        Name := "GreenFoods"
        Location := "Los Angeles"
        Category := "Organic Food Company"
        Rating := "4.5"
        Contact := "+1 555-5678"
        Description := "Leading organic food supplier with sustainable farming practices."
        Image := "https://example.com/greenfoods.jpg"
        Link := "https://greenfoods.com" } ]
  else
    [ { Type' := "unknown"
        Description := "Invalid entity type." } ]

/-- `Server.GetEventsByTypeHandler` (src/main.go lines 112-147): extracts
the entity type from the path, rejects an empty entity type (400), then a
missing `query` parameter (400; `r.URL.Query().Get` returns `""` when the
parameter is absent), then a non-GET method (405), and finally answers 200
with the marshalled `GetResultsOfType` output. -/
def GetEventsByTypeHandler (method path query : String) : HttpResponse :=
  let entityType := extractEntityType path
  if entityType = "" then
    .error "Missing ENTITY_TYPE in URL" 400
  else if query = "" then
    .error "Missing query parameter" 400
  else if method ≠ "GET" then
    .error "Only GET requests allowed" 405
  else
    .okJson (GetResultsOfType entityType query)

/-- A concrete stand-in for `json.Unmarshal` on the body `"\x7b\x7d"` (the
two-character JSON text of an empty object): unmarshalling it into an
`Index` succeeds and leaves every field at Go's zero value `""`. Any other
body fails to parse. -/
def parseEmptyObject : String → Option Index :=
  fun s => if s = "\x7b\x7d" then some {} else none

/-- A concrete stand-in for `json.Unmarshal` on a body that is not valid
JSON: parsing always fails. -/
def parseNever : String → Option Index :=
  fun _ => none

/-! ## Claims -/

/-- C1: the read path's result is independent of the query string — for
every entity-type string `et` and non-empty query strings `q1`, `q2`,
`GetResultsOfType et q1 = GetResultsOfType et q2`; the query parameter
influences only the presence check in the handler, never the data. -/
theorem getResultsOfType_query_independent (et q1 q2 : String)
    (h1 : q1 ≠ "") (h2 : q2 ≠ "") :
    GetResultsOfType et q1 = GetResultsOfType et q2 := rfl

/-- Witness for C1 at a concrete entity type and two concrete queries. -/
theorem getResultsOfType_query_independent_witness :
    GetResultsOfType "events" "go" = GetResultsOfType "events" "zig" :=
  getResultsOfType_query_independent "events" "go" "zig"
    (by decide) (by decide)

/-- C3: the enrichment lookup is a constant stub — for every input event,
`FetchDataFromMongoDB` returns `AdditionalInfo = "dummy info"` with a nil
error. -/
theorem fetchDataFromMongoDB_constant_stub (event : Index) :
    FetchDataFromMongoDB event = ({ AdditionalInfo := "dummy info" }, none) :=
  rfl

/-- C5: the read endpoint filters the canned results by entity type — every
result returned for "events" has Type "event", for "places" Type "place",
for "people" Type "people", and for "businesses" Type "business", for
every query string. -/
theorem getResultsOfType_filters_by_entity_type (q : String) :
    (∀ r ∈ GetResultsOfType "events" q, r.Type' = "event") ∧
    (∀ r ∈ GetResultsOfType "places" q, r.Type' = "place") ∧
    (∀ r ∈ GetResultsOfType "people" q, r.Type' = "people") ∧
    (∀ r ∈ GetResultsOfType "businesses" q, r.Type' = "business") := by
  refine ⟨?_, ?_, ?_, ?_⟩ <;>
    · intro r hr
      fin_cases hr <;> rfl

/-- C10: `GetResultsOfType` never returns an empty list — the result has
length 2 for the four known entity types and length 1 otherwise. -/
theorem getResultsOfType_length (et q : String) :
    (GetResultsOfType et q).length =
      if et = "events" ∨ et = "places" ∨ et = "people" ∨ et = "businesses"
      then 2 else 1 := by
  unfold GetResultsOfType
  split_ifs with h1 h2 h3 h4 <;> simp_all

/-- C4 counterexample: the claim says a non-GET request is answered 405
regardless of the presence or absence of the query parameter, but the
handler checks the query parameter first — a POST to /events/events with
the query parameter absent is answered 400 "Missing query parameter",
not 405. -/
theorem getEventsByTypeHandler_method_check_cex :
    GetEventsByTypeHandler "POST" "/events/events" "" =
      .error "Missing query parameter" 400 ∧
    GetEventsByTypeHandler "POST" "/events/events" "" ≠
      .error "Only GET requests allowed" 405 := by
  constructor
  · rfl
  · decide

/-- C4 amended: for every request to /events/{ENTITY_TYPE} with a
non-empty entity-type segment whose HTTP method is not GET and whose
query parameter is present, the handler responds 405 Method Not Allowed
("Only GET requests allowed") and returns no result data. (The original
claim's "regardless of the presence or absence of the query parameter"
fails: the query-presence check precedes the method check.) -/
theorem getEventsByTypeHandler_method_check (method path query : String)
    (het : extractEntityType path ≠ "") (hq : query ≠ "")
    (hm : method ≠ "GET") :
    GetEventsByTypeHandler method path query =
      .error "Only GET requests allowed" 405 := by
  unfold GetEventsByTypeHandler
  rw [if_neg het, if_neg hq, if_pos hm]

/-- Witness for the amended C4 at a concrete non-GET request with a
query parameter present. -/
theorem getEventsByTypeHandler_method_check_witness :
    GetEventsByTypeHandler "POST" "/events/events" "rock" =
      .error "Only GET requests allowed" 405 :=
  getEventsByTypeHandler_method_check "POST" "/events/events" "rock"
    (by decide) (by decide) (by decide)

/-- C9 counterexample: the claim quantifies over every entity-type string
outside the four known ones and every query string, but the handler
rejects an empty query parameter (400 "Missing query parameter") and an
empty entity-type segment (400 "Missing ENTITY_TYPE in URL") before the
static lookup, so it does not always respond 200. -/
theorem getEventsByTypeHandler_unknown_type_cex :
    GetEventsByTypeHandler "GET" "/events/mystery" "" =
      .error "Missing query parameter" 400 ∧
    GetEventsByTypeHandler "GET" "/events/" "music" =
      .error "Missing ENTITY_TYPE in URL" 400 := by
  constructor <;> rfl

/-- C9 amended: unknown entity types are not rejected — for every
entity-type string outside events/places/people/businesses and every
query string, `GetResultsOfType` returns exactly one `Result` whose Type
is "unknown" and whose Description is "Invalid entity type."; and a GET
request whose extracted entity-type segment is non-empty and outside that
set, with a non-empty query parameter, is answered 200 with that single
result as JSON rather than an HTTP error. -/
theorem getResultsOfType_unknown_type (et q path q2 : String)
    (h1 : et ≠ "events") (h2 : et ≠ "places") (h3 : et ≠ "people")
    (h4 : et ≠ "businesses")
    (hp0 : extractEntityType path ≠ "")
    (hp1 : extractEntityType path ≠ "events")
    (hp2 : extractEntityType path ≠ "places")
    (hp3 : extractEntityType path ≠ "people")
    (hp4 : extractEntityType path ≠ "businesses")
    (hq : q2 ≠ "") :
    GetResultsOfType et q =
      [{ Type' := "unknown", Description := "Invalid entity type." }] ∧
    GetEventsByTypeHandler "GET" path q2 =
      .okJson [{ Type' := "unknown", Description := "Invalid entity type." }] := by
  constructor
  · unfold GetResultsOfType
    rw [if_neg h1, if_neg h2, if_neg h3, if_neg h4]
  · unfold GetEventsByTypeHandler
    rw [if_neg hp0, if_neg hq, if_neg (by decide : ¬ ("GET" : String) ≠ "GET")]
    unfold GetResultsOfType
    rw [if_neg hp1, if_neg hp2, if_neg hp3, if_neg hp4]

/-- Witness for the amended C9 at a concrete unknown entity type, both
for the static lookup and for a full GET request. -/
theorem getResultsOfType_unknown_type_witness :
    GetResultsOfType "mystery" "music" =
      [{ Type' := "unknown", Description := "Invalid entity type." }] ∧
    GetEventsByTypeHandler "GET" "/events/mystery" "music" =
      .okJson [{ Type' := "unknown", Description := "Invalid entity type." }] :=
  getResultsOfType_unknown_type "mystery" "music" "/events/mystery" "music"
    (by decide) (by decide) (by decide) (by decide) (by decide)
    (by decide) (by decide) (by decide) (by decide) (by decide)

/-- A concrete stand-in for `json.Unmarshal` on a body carrying all five
event fields: the body "sample" unmarshals to a fully populated `Index`;
any other body fails to parse. -/
def parseSample : String → Option Index :=
  fun s =>
    if s = "sample" then
      some { EntityType := "event", Action := "create", EntityId := "e1",
             ItemId := "i1", ItemType := "place" }
    else none

/-- An enrichment function that fails: returns the zero `MongoData` and a
non-nil error, modelling a MongoDB lookup going wrong. -/
def fetchFailing : Index → MongoData × Option String :=
  fun _ => ({ AdditionalInfo := "" }, some "mongo unavailable")

/-- C2 counterexample: the body consisting of the two characters `{}` is
valid JSON and unmarshals to an `Index` with every field missing (Go zero
values), yet the handler does not reject it — it responds 200 and inserts
a row of empty strings (plus the stub's additional info) into the events
table. -/
theorem eventHandler_missing_fields_cex :
    (EventHandler parseEmptyObject "POST" "\x7b\x7d" true []).1 =
      .okMessage "Event received and stored successfully" ∧
    (EventHandler parseEmptyObject "POST" "\x7b\x7d" true []).2 =
      [{ entity_type := "", action := "", entity_id := "", item_id := "",
         item_type := "", additional_info := "dummy info" }] := by
  constructor <;> rfl

/-- C2 amended: the write path performs no required-field check — every
POST to /event whose body parses as valid JSON is accepted, even when
every event field is missing (Go zero values): the handler inserts the
row of empty fields and responds 200 instead of rejecting the request.
(`true` is the `db.Exec`-succeeds flag.) -/
theorem eventHandler_no_required_field_check
    (parse : String → Option Index) (body : String) (table : List EventRow)
    (h : parse body = some {}) :
    (EventHandler parse "POST" body true table).1 =
      .okMessage "Event received and stored successfully" ∧
    (EventHandler parse "POST" body true table).2 =
      table ++ [{ entity_type := "", action := "", entity_id := "",
                  item_id := "", item_type := "",
                  additional_info := "dummy info" }] := by
  unfold EventHandler EventHandlerWith
  rw [h]
  exact ⟨rfl, rfl⟩

/-- Witness for the amended C2 at the concrete empty-object body. -/
theorem eventHandler_no_required_field_check_witness :
    parseEmptyObject "\x7b\x7d" = some {} ∧
    ((EventHandler parseEmptyObject "POST" "\x7b\x7d" true []).1 =
      .okMessage "Event received and stored successfully" ∧
    (EventHandler parseEmptyObject "POST" "\x7b\x7d" true []).2 =
      [{ entity_type := "", action := "", entity_id := "", item_id := "",
         item_type := "", additional_info := "dummy info" }]) :=
  ⟨rfl, eventHandler_no_required_field_check parseEmptyObject "\x7b\x7d" [] rfl⟩

/-- C6: write-path method and JSON validation — a non-POST request to
/event is answered 405 ("Only POST requests allowed"), a POST whose body
fails to unmarshal is answered 400 ("Invalid JSON"), and in both error
cases the events table is unchanged. -/
theorem eventHandler_method_and_json_validation
    (parse : String → Option Index) (method body : String)
    (execOk : Bool) (table : List EventRow)
    (h : method ≠ "POST" ∨ parse body = none) :
    (EventHandler parse method body execOk table).2 = table ∧
    (EventHandler parse method body execOk table).1 =
      (if method = "POST" then .error "Invalid JSON" 400
       else .error "Only POST requests allowed" 405) := by
  unfold EventHandler EventHandlerWith
  by_cases hm : method = "POST"
  · rcases h with h | h
    · exact absurd hm h
    · rw [if_neg (not_not_intro hm), h, if_pos hm]
      exact ⟨rfl, rfl⟩
  · rw [if_pos hm, if_neg hm]
    exact ⟨rfl, rfl⟩

/-- Witness for C6 at a concrete GET request (wrong method) with an
unparsable body. -/
theorem eventHandler_method_and_json_validation_witness :
    (EventHandler parseNever "GET" "not json" true []).2 = [] ∧
    (EventHandler parseNever "GET" "not json" true []).1 =
      (if ("GET" : String) = "POST" then .error "Invalid JSON" 400
       else .error "Only POST requests allowed" 405) :=
  eventHandler_method_and_json_validation parseNever "GET" "not json" true []
    (Or.inl (by decide))

/-- C7: a POST to /event that passes validation (method POST, body
unmarshals) leads to exactly one database insert — the events table is
extended by exactly the one combined row holding the event's entity_type,
action, entity_id, item_id and item_type together with the enrichment
result's additional_info ("dummy info" from the stub) — and the handler
then responds 200 with the success message. (`true` is the
`db.Exec`-succeeds flag.) -/
theorem eventHandler_valid_post_single_insert
    (parse : String → Option Index) (body : String) (event : Index)
    (table : List EventRow) (h : parse body = some event) :
    (EventHandler parse "POST" body true table).1 =
      .okMessage "Event received and stored successfully" ∧
    (EventHandler parse "POST" body true table).2 =
      table ++ [{ entity_type := event.EntityType, action := event.Action,
                  entity_id := event.EntityId, item_id := event.ItemId,
                  item_type := event.ItemType,
                  additional_info := "dummy info" }] := by
  unfold EventHandler EventHandlerWith
  rw [h]
  exact ⟨rfl, rfl⟩

/-- Witness for C7 at a concrete fully populated event body. -/
theorem eventHandler_valid_post_single_insert_witness :
    parseSample "sample" =
      some { EntityType := "event", Action := "create", EntityId := "e1",
             ItemId := "i1", ItemType := "place" } ∧
    ((EventHandler parseSample "POST" "sample" true []).1 =
      .okMessage "Event received and stored successfully" ∧
    (EventHandler parseSample "POST" "sample" true []).2 =
      [{ entity_type := "event", action := "create", entity_id := "e1",
         item_id := "i1", item_type := "place",
         additional_info := "dummy info" }]) :=
  ⟨rfl, eventHandler_valid_post_single_insert parseSample "sample"
    { EntityType := "event", Action := "create", EntityId := "e1",
      ItemId := "i1", ItemType := "place" } [] rfl⟩

/-- C8: enrichment is optional on the write path — for every enrichment
function that returns a non-nil error together with some `MongoData`
value, a valid POST still flows handler → enrichment → persistence: the
handler continues, stores the event combined with whatever `MongoData`
was returned, and responds with the 200 success message; the enrichment
error alone never causes an error response. -/
theorem eventHandler_enrichment_error_optional
    (fetch : Index → MongoData × Option String)
    (parse : String → Option Index) (body errMsg : String) (event : Index)
    (md : MongoData) (table : List EventRow)
    (hp : parse body = some event) (hf : fetch event = (md, some errMsg)) :
    EventHandlerWith fetch parse "POST" body true table =
      (.okMessage "Event received and stored successfully",
        storeEvent table event md) := by
  unfold EventHandlerWith
  rw [hp]
  simp only [hf]
  rfl

/-- Witness for C8 at a concrete failing enrichment function. -/
theorem eventHandler_enrichment_error_optional_witness :
    parseSample "sample" =
      some { EntityType := "event", Action := "create", EntityId := "e1",
             ItemId := "i1", ItemType := "place" } ∧
    fetchFailing { EntityType := "event", Action := "create",
                   EntityId := "e1", ItemId := "i1", ItemType := "place" } =
      ({ AdditionalInfo := "" }, some "mongo unavailable") ∧
    EventHandlerWith fetchFailing parseSample "POST" "sample" true [] =
      (.okMessage "Event received and stored successfully",
        storeEvent []
          { EntityType := "event", Action := "create", EntityId := "e1",
            ItemId := "i1", ItemType := "place" }
          { AdditionalInfo := "" }) :=
  ⟨rfl, rfl,
    eventHandler_enrichment_error_optional fetchFailing parseSample "sample"
      "mongo unavailable"
      { EntityType := "event", Action := "create", EntityId := "e1",
        ItemId := "i1", ItemType := "place" }
      { AdditionalInfo := "" } [] rfl rfl⟩
